import Mathlib

/-!
# Verification of the klio pipeline-assembly and wrapping core

Shallow embedding of the routing/assembly engine of the klio repository:

* `src/exec/src/klio_exec/commands/run.py` — `KlioPipeline._setup_data_io_filters`,
  `_generate_pcoll`, `_generate_input_conf_names`, `_generate_pcoll_per_input`,
  `_setup_pipeline`;
* `src/lib/src/klio/transforms/_helpers.py` — `_wrap_process`,
  `_KlioGcsCheckExistsBase.process`, `_get_absolute_path`;
* `src/lib/src/klio/transforms/io.py` — `_KlioReadFromTextSource.read_records`,
  `_KlioTextSink.write_record`, `KlioReadFromAvro._get_file_pattern`.

Beam PCollections are modelled as lists of elements; Beam's `Flatten` is list
concatenation; per-element `ParDo` stages with tagged outputs become list
filters; a raised Python exception becomes `Except.error`.
-/

namespace Klio

/-- Model of Python `os.path.join(a, b)` for POSIX paths (two arguments): an
absolute second component replaces the first; otherwise the parts are joined
with exactly one separator. -/
def osPathJoin (a b : String) : String :=
  if b.data.head? = some '/' then b
  else if a = "" then b
  else if a.data.getLast? = some '/' then a ++ b
  else a ++ "/" ++ b

/-! ## Envelope codec

`klio_core.proto.klio_pb2.KlioMessage` is generated protobuf code that is not
part of this repository's sources. -/

/-- Modelled from the spec: the KlioMessage envelope, the "versioned container
holding `payload: bytes`, `metadata` (opaque to the core), and a `version`
tag" (§3).  The `element` field is the `data.v2.element` payload bytes used by
the text source/sink; `metadata` is kept as an opaque byte list. -/
structure KlioMessage where
  version : Nat
  element : List Nat
  metadata : List Nat
  deriving DecidableEq, Repr

/-- Modelled from the spec: `KlioMessage.SerializeToString()` — the envelope's
"length-prefixed ... binary blob" serialization (§3, §6): version tag, then the
length-prefixed payload, then the length-prefixed metadata. -/
def serializeToString (m : KlioMessage) : List Nat :=
  m.version :: m.element.length :: (m.element ++ (m.metadata.length :: m.metadata))

/-- Modelled from the spec: `KlioMessage.ParseFromString()` — decoding of the
serialized envelope; fails (`none`, standing for the parse error) on input that
does not follow the schema. -/
def parseFromString (bs : List Nat) : Option KlioMessage :=
  match bs with
  | v :: n :: rest =>
    if n ≤ rest.length then
      match rest.drop n with
      | m :: rest2 =>
        if rest2.length = m then some ⟨v, rest.take n, rest2⟩ else none
      | [] => none
    else none
  | _ => none

/-- Model of a byte string produced by Python's `str.encode("utf-8")`: one
code point per entry. -/
def utf8Encode (s : String) : List Nat :=
  s.toList.map Char.toNat

/-- `_KlioReadFromTextSource.read_records` (io.py), per record: the record's
bytes become `message.data.v2.element` of a fresh `KlioMessage` (version and
metadata left at their protobuf defaults), which is serialized. -/
def textSource_read_record (record : String) : List Nat :=
  serializeToString ⟨0, utf8Encode record, []⟩

/-- `_KlioTextSink.write_record` (io.py): parse the encoded element back into a
`KlioMessage` and hand `message.data.v2.element` to the underlying text sink.
Returns the bytes written, `none` when the parse fails. -/
def textSink_write_record (encoded_element : List Nat) : Option (List Nat) :=
  (parseFromString encoded_element).map KlioMessage.element

/-! ## `KlioReadFromAvro._get_file_pattern` (io.py) -/

/-- Python truthiness of an optional string: `None` and `""` are falsy. -/
def pyTruthy : Option String → Bool
  | none => false
  | some s => !(s == "")

/-- `KlioReadFromAvro._get_file_pattern` (io.py): raises
`KlioMissingConfiguration` (modelled as `Except.error ()`) when neither
`file_pattern` nor `location` is truthy; joins both when both are truthy;
otherwise falls back to `location` only when `file_pattern is None`. -/
def get_file_pattern (file_pattern location : Option String) : Except Unit String :=
  if !(pyTruthy file_pattern || pyTruthy location) then
    .error ()
  else if pyTruthy file_pattern && pyTruthy location then
    .ok (osPathJoin (location.getD "") (file_pattern.getD ""))
  else if file_pattern = none then
    .ok (location.getD "")
  else
    .ok (file_pattern.getD "")

/-! ## The wrapping contract and the GCS existence-check stage (_helpers.py) -/

/-- A raised Python exception, as seen at a stage boundary. `malformed` stands
for any exception raised while deserializing an incoming element into a
`KlioMessage`; `lookupError` for a backing-store failure raised by
`exists`; `other` for anything else. -/
inductive PyErr where
  | malformed : PyErr
  | lookupError : PyErr
  | other : String → PyErr
  deriving DecidableEq, Repr

/-- One log record emitted by a stage.  `_wrap_process` logs exactly
"Dropping KlioMessage - exception occurred when serializing '<incoming>' to a
KlioMessage. Error: <err>" in its `except` block, carrying the original
error. -/
inductive LogRecord where
  | droppedSerialize : List Nat → PyErr → LogRecord
  deriving DecidableEq, Repr

/-- Per-element data-location configuration (`job_config.data_inputs[i]` /
`data_outputs[i]`), the fields read by `_KlioBaseDataExistenceCheck` and
`KlioPipeline._setup_data_io_filters`. -/
structure DataConfig where
  location : String
  file_suffix : String
  skip_klio_existence_check : Bool
  deriving DecidableEq, Repr

/-- Model of `bytes.decode("utf-8")`, inverse of `utf8Encode`. -/
def utf8Decode (bs : List Nat) : String :=
  String.mk (bs.map Char.ofNat)

/-- `_KlioBaseDataExistenceCheck._get_absolute_path` (_helpers.py):
`os.path.join(self._location, element.decode("utf-8") + self._suffix)`. -/
def get_absolute_path (c : DataConfig) (element : List Nat) : String :=
  osPathJoin c.location (utf8Decode element ++ c.file_suffix)

/-- A `pvalue.TaggedOutput(tag, serialized_message)` yielded by a stage. -/
structure TaggedOut where
  tag : String
  value : List Nat
  deriving DecidableEq, Repr

/-- `_KlioGcsCheckExistsBase.process` (_helpers.py): compute the absolute
path of the element, query the existence lookup (which may raise — modelled by
the `ex` argument returning `Except`), and yield one `TaggedOutput` whose tag
is the resulting `DataExistState` value (`"found"` / `"not_found"`) and whose
value is the re-serialized message. -/
def gcsCheckExists_process (c : DataConfig) (ex : String → Except PyErr Bool)
    (kmsg : KlioMessage) : Except PyErr (List TaggedOut) := do
  let item := kmsg.element
  let item_path := get_absolute_path c item
  let item_exists ← ex item_path
  let state := if item_exists then "found" else "not_found"
  pure [⟨state, serializeToString kmsg⟩]

/-- `_wrap_process` (_helpers.py): the wrapped per-element entry point.  The
`try` block covers BOTH the deserialization (`_to_klio_message`, an external
collaborator passed here as `to_klio_message`) and the whole execution of the
wrapped `meth`; `except Exception` logs `droppedSerialize` with the original
error, emits nothing, and returns — so the wrapper itself never raises, which
is why its result is always `Except.ok`. -/
def wrap_process (to_klio_message : List Nat → Except PyErr KlioMessage)
    (meth : KlioMessage → Except PyErr (List TaggedOut))
    (incoming_item : List Nat) : Except PyErr (List TaggedOut × List LogRecord) :=
  match to_klio_message incoming_item with
  | .error err => .ok ([], [.droppedSerialize incoming_item err])
  | .ok kmsg =>
    match meth kmsg with
    | .error err => .ok ([], [.droppedSerialize incoming_item err])
    | .ok outs => .ok (outs, [])

/-! ## Pipeline assembly (run.py)

PCollections of KlioMessages are modelled as lists of `Elem`, one `Elem` per
message, carrying the decoded element identifier and the metadata markers the
branch router consults.  The existence lookup is an oracle `String → Bool`
(absolute path ↦ found). -/

/-- One message flowing through the filter chain: the decoded element
identifier plus the per-element force/ping metadata markers. -/
structure Elem where
  element : String
  ping : Bool
  force : Bool
  deriving DecidableEq, Repr

/-- Per-source event configuration (`job_config.event_inputs[i]` /
`event_outputs[i]`).  `elements` models the stream the source's read transform
(`transform_cls_in(**input_config.to_io_kwargs())`) yields into the pipeline;
the IO transform classes themselves are out of scope. -/
structure EventConfig where
  name : String
  skip_klio_read : Bool
  skip_klio_write : Bool
  elements : List Elem
  deriving DecidableEq, Repr

/-- The job configuration slice `KlioPipeline` reads. -/
structure JobConfig where
  event_inputs : List EventConfig
  event_outputs : List EventConfig
  data_inputs : List DataConfig
  data_outputs : List DataConfig
  deriving DecidableEq, Repr

/-- A build-time abort: `SystemExit(1)` raised in `_setup_data_io_filters`
when more than one data input or output is configured, or the `IndexError`
from `data_inputs[0]` / `data_outputs[0]` on an empty list. -/
inductive BuildError where
  | unsupportedMultipleData : BuildError
  | missingDataConfig : BuildError
  deriving DecidableEq, Repr

/-- Modelled from the spec: `helpers.KlioFilterPing` (the `klio.transforms.
helpers` module is not among the sources).  §4.4: the ping filter "splits
elements into PASS_THRU (ping-only elements ...) and PROCESS", decided by the
element's ping marker.  Returns `(process, pass_thru)`. -/
def klioFilterPing (xs : List Elem) : List Elem × List Elem :=
  (xs.filter (fun e => !e.ping), xs.filter (fun e => e.ping))

/-- Modelled from the spec: `helpers.KlioFilterForce` (module not among the
sources).  §4.4: "The force filter re-splits FOUND elements: those marked
`force=true` rejoin PROCESS, others rejoin PASS_THRU."  Returns
`(process, pass_thru)`. -/
def klioFilterForce (xs : List Elem) : List Elem × List Elem :=
  (xs.filter (fun e => e.force), xs.filter (fun e => !e.force))

/-- The tagged output of `helpers.KlioGcsCheckInputExists` /
`KlioGcsCheckOutputExists` over a stream, as implemented by
`_KlioGcsCheckExistsBase.process` (_helpers.py): each element is tagged
`found` or `not_found` according to the existence lookup on its absolute
path.  Returns `(found, not_found)`. -/
def klioGcsCheckExists (c : DataConfig) (ex : String → Bool)
    (xs : List Elem) : List Elem × List Elem :=
  (xs.filter (fun e => ex (osPathJoin c.location (e.element ++ c.file_suffix))),
   xs.filter (fun e => !ex (osPathJoin c.location (e.element ++ c.file_suffix))))

/-- The output-side block of `_setup_data_io_filters` (run.py): when the
output existence check is not skipped, PROCESS elements flow through the
Output Exists Filter, FOUND ones through the Output Force Filter; the
pass-thrus are flattened as `(pings.pass_thru, output_force.pass_thru)` and the
to-process side as `(output_exists.not_found, output_force.process)`.  When the
check is skipped both streams pass through unchanged.  Returns
`(to_filter_input, to_pass_thru)`. -/
def outputFilterBlock (outC : DataConfig) (exOut : String → Bool)
    (pings_process pings_pass_thru : List Elem) : List Elem × List Elem :=
  if !outC.skip_klio_existence_check then
    let output_exists := klioGcsCheckExists outC exOut pings_process
    let output_force := klioFilterForce output_exists.1
    (output_exists.2 ++ output_force.1, pings_pass_thru ++ output_force.2)
  else
    (pings_process, pings_pass_thru)

/-- The input-side block of `_setup_data_io_filters` (run.py): when the input
existence check is not skipped, the Input Exists Filter tags the stream, the
`not_found` side is piped into `KlioDrop` (discarded after logging) and
`to_process = input_exists.found`; otherwise the stream passes through. -/
def inputFilterBlock (inC : DataConfig) (exIn : String → Bool)
    (to_filter_input : List Elem) : List Elem :=
  if !inC.skip_klio_existence_check then
    (klioGcsCheckExists inC exIn to_filter_input).1
  else
    to_filter_input

/-- `KlioPipeline._setup_data_io_filters` (run.py): aborts with
`SystemExit(1)` when more than one data input or more than one data output is
configured; otherwise wires Ping Filter → output block → input block over
`in_pcol` and returns `(to_process, to_pass_thru)`. -/
def setup_data_io_filters (cfg : JobConfig) (exIn exOut : String → Bool)
    (in_pcol : List Elem) : Except BuildError (List Elem × List Elem) :=
  if 1 < cfg.data_inputs.length ∨ 1 < cfg.data_outputs.length then
    .error .unsupportedMultipleData
  else
    match cfg.data_inputs, cfg.data_outputs with
    | inC :: _, outC :: _ =>
      let pings := klioFilterPing in_pcol
      let (to_filter_input, to_pass_thru) :=
        outputFilterBlock outC exOut pings.1 pings.2
      .ok (inputFilterBlock inC exIn to_filter_input, to_pass_thru)
    | _, _ => .error .missingDataConfig

/-- The to-process value returned for one event input by `_generate_pcoll`:
either the raw pipeline object itself (`skip_klio_read`) or a filtered
PCollection. -/
inductive InPColl where
  | raw : InPColl
  | stream : List Elem → InPColl
  deriving DecidableEq, Repr

/-- What `run_callable` is invoked on by `_setup_pipeline`: the single
to-process value, or the `MultiInputPCollTuple` namedtuple whose fields are
named after each input. -/
inductive PColl where
  | single : InPColl → PColl
  | multi : List (String × InPColl) → PColl
  deriving DecidableEq, Repr

/-- `KlioPipeline._generate_pcoll` (run.py): with `skip_klio_read` the raw
pipeline is returned as `to_process` with `to_pass_thru = None`; otherwise the
read transform's stream is run through `_setup_data_io_filters`. -/
def generate_pcoll (cfg : JobConfig) (input_config : EventConfig)
    (exIn exOut : String → Bool) :
    Except BuildError (InPColl × Option (List Elem)) :=
  if input_config.skip_klio_read then
    .ok (.raw, none)
  else do
    let (to_process, to_pass_thru) ←
      setup_data_io_filters cfg exIn exOut input_config.elements
    pure (.stream to_process, some to_pass_thru)

/-- `KlioPipeline._generate_input_conf_names` (run.py): each event input is
named `"{}{}".format(ev.name, index)`. -/
def generate_input_conf_names (evs : List EventConfig) :
    List (String × EventConfig) :=
  evs.enum.map (fun p => (p.2.name ++ toString p.1, p.2))

/-- The loop body of `_generate_pcoll_per_input` (run.py): builds the
name → to-process association in input order and collects the pass-thru
streams of those inputs whose `input_to_pass_thru` is not `None`. -/
def generate_pcolls (cfg : JobConfig) (exIn exOut : String → Bool) :
    List (String × EventConfig) →
    Except BuildError (List (String × InPColl) × List (List Elem))
  | [] => .ok ([], [])
  | (input_name, input_conf) :: rest => do
    let (input_to_process, input_to_pass_thru) ←
      generate_pcoll cfg input_conf exIn exOut
    let (named, pass_thrus) ← generate_pcolls cfg exIn exOut rest
    match input_to_pass_thru with
    | some pt => pure ((input_name, input_to_process) :: named, pt :: pass_thrus)
    | none => pure ((input_name, input_to_process) :: named, pass_thrus)

/-- `KlioPipeline._generate_pcoll_per_input` (run.py): one filter chain per
named input; `to_process` is the `MultiInputPCollTuple`, `to_pass_thru` the
flatten of every input's pass-thru stream. -/
def generate_pcoll_per_input (cfg : JobConfig) (exIn exOut : String → Bool) :
    Except BuildError (PColl × List Elem) := do
  let inputs := generate_input_conf_names cfg.event_inputs
  let (named, pass_thrus) ← generate_pcolls cfg exIn exOut inputs
  pure (.multi named, pass_thrus.flatten)

/-- `KlioPipeline._setup_pipeline` (run.py): choose the single- or
multi-input assembly, invoke the user's `run_callable` on `to_process`, and
when an event output is configured without `skip_klio_write`, flatten the
callable's output with `to_pass_thru` when the latter is not `None`.  Returns
the stream handed to the output transform (`none` when no output transform is
applied). -/
def setup_pipeline (cfg : JobConfig) (run_callable : PColl → List Elem)
    (exIn exOut : String → Bool) : Except BuildError (Option (List Elem)) := do
  let (to_process, to_pass_thru) ←
    match cfg.event_inputs with
    | [] => pure (PColl.single .raw, (none : Option (List Elem)))
    | [input_config] => do
      let (p, pt) ← generate_pcoll cfg input_config exIn exOut
      pure (PColl.single p, pt)
    | _ :: _ :: _ => do
      let (p, pt) ← generate_pcoll_per_input cfg exIn exOut
      pure (p, some pt)
  let out_pcol := run_callable to_process
  match cfg.event_outputs with
  | [] => pure none
  | output_config :: _ =>
    if !output_config.skip_klio_write then
      match to_pass_thru with
      | some pt => pure (some (out_pcol ++ pt))
      | none => pure (some out_pcol)
    else
      pure none

theorem pyTruthy_none : pyTruthy none = false := rfl

theorem pyTruthy_some (s : String) : pyTruthy (some s) = !(s == "") := rfl

end Klio

namespace Klio

/-- Shape of a successful `_setup_data_io_filters` run: non-empty data
input/output configuration, and the returned streams are the wired
Ping → output block → input block chains. -/
theorem setup_data_io_filters_ok {cfg : JobConfig} {exIn exOut : String → Bool}
    {in_pcol to_process to_pass_thru : List Elem}
    (h : setup_data_io_filters cfg exIn exOut in_pcol = .ok (to_process, to_pass_thru)) :
    ∃ inC inT outC outT,
      cfg.data_inputs = inC :: inT ∧ cfg.data_outputs = outC :: outT ∧
      to_process = inputFilterBlock inC exIn
        (outputFilterBlock outC exOut (klioFilterPing in_pcol).1
          (klioFilterPing in_pcol).2).1 ∧
      to_pass_thru = (outputFilterBlock outC exOut (klioFilterPing in_pcol).1
          (klioFilterPing in_pcol).2).2 := by
  unfold setup_data_io_filters at h
  split at h
  · simp at h
  · split at h
    · next inC inT outC outT hin hout =>
      simp only [Except.ok.injEq, Prod.mk.injEq] at h
      exact ⟨inC, inT, outC, outT, hin, hout, h.1.symm, h.2.symm⟩
    · simp at h

/-- Elements on the to-process side of the output block come from the
ping-filtered PROCESS stream. -/
theorem mem_pp_of_mem_outputFilterBlock_fst {outC : DataConfig}
    {exOut : String → Bool} {pp pt : List Elem} {e : Elem}
    (h : e ∈ (outputFilterBlock outC exOut pp pt).1) : e ∈ pp := by
  unfold outputFilterBlock at h
  split at h
  · simp only [klioGcsCheckExists, klioFilterForce, List.mem_append,
      List.mem_filter] at h
    tauto
  · exact h

/-- The input block only filters: its output is a subset of its input. -/
theorem mem_of_mem_inputFilterBlock {inC : DataConfig} {exIn : String → Bool}
    {l : List Elem} {e : Elem} (h : e ∈ inputFilterBlock inC exIn l) : e ∈ l := by
  unfold inputFilterBlock at h
  split at h
  · simp only [klioGcsCheckExists] at h
    exact (List.mem_filter.mp h).1
  · exact h

/-- The pass-thru input of the output block is kept in its pass-thru
output. -/
theorem mem_outputFilterBlock_snd_of_mem {outC : DataConfig}
    {exOut : String → Bool} {pp pt : List Elem} {e : Elem} (h : e ∈ pt) :
    e ∈ (outputFilterBlock outC exOut pp pt).2 := by
  unfold outputFilterBlock
  split
  · exact List.mem_append_left _ h
  · exact h

end Klio

/-- C5: the ping/force marker split is applied first — for every stream built
by `_setup_data_io_filters`, an element with `ping=true` lands in the
PASS_THRU branch and not in the to-process branch, whatever the
`skip_existence_check` configuration of the input or the output and whatever
the existence lookups answer. -/
theorem C5_ping_filter_first (cfg : Klio.JobConfig) (exIn exOut : String → Bool)
    (in_pcol to_process to_pass_thru : List Klio.Elem)
    (h : Klio.setup_data_io_filters cfg exIn exOut in_pcol =
      .ok (to_process, to_pass_thru))
    (e : Klio.Elem) (he : e ∈ in_pcol) (hping : e.ping = true) :
    e ∈ to_pass_thru ∧ e ∉ to_process := by
  obtain ⟨inC, inT, outC, outT, hin, hout, hp, ht⟩ :=
    Klio.setup_data_io_filters_ok h
  subst hp; subst ht
  constructor
  · apply Klio.mem_outputFilterBlock_snd_of_mem
    simp [Klio.klioFilterPing, List.mem_filter, he, hping]
  · intro hmem
    have h1 := Klio.mem_of_mem_inputFilterBlock hmem
    have h2 := Klio.mem_pp_of_mem_outputFilterBlock_fst h1
    simp [Klio.klioFilterPing, List.mem_filter, hping] at h2

/-- C5 witness: a ping element lands in PASS_THRU at a concrete configuration
(with the output existence check skipped and everything found). -/
theorem C5_ping_filter_first_witness :
    (⟨"a", true, false⟩ : Klio.Elem) ∈ [(⟨"a", true, false⟩ : Klio.Elem)] ∧
    (⟨"a", true, false⟩ : Klio.Elem) ∉ ([] : List Klio.Elem) :=
  C5_ping_filter_first
    ⟨[], [], [⟨"gs://i", ".wav", false⟩], [⟨"gs://o", ".wav", true⟩]⟩
    (fun _ => true) (fun _ => true) [⟨"a", true, false⟩] [] [⟨"a", true, false⟩]
    rfl ⟨"a", true, false⟩ (by decide) rfl

/-- C4 counterexample: an element with `force=true` whose output is FOUND
(output check enabled) does not in general reach the user callable: with the
input existence check enabled and the input missing, `_setup_data_io_filters`
drops it — `to_process` and `to_pass_thru` are both empty — refuting "rejoins
PROCESS and reaches the user callable" as stated. -/
theorem C4_counterexample :
    Klio.setup_data_io_filters
      ⟨[], [], [⟨"gs://i", ".wav", false⟩], [⟨"gs://o", ".wav", false⟩]⟩
      (fun _ => false) (fun _ => true) [⟨"a", false, true⟩] =
      .ok ([], []) := rfl

/-- C4 (amended): for every PROCESS element (ping=false) with the
output-existence check enabled: output NOT_FOUND → the element continues on
the PROCESS side, reaching the callable iff the input filter passes it (input
check skipped or input found); output FOUND and force=false → it lands in
PASS_THRU and never in the to-process stream; output FOUND and force=true →
it rejoins PROCESS, reaching the callable iff the input filter passes it. -/
theorem C4_output_existence_force_routing (cfg : Klio.JobConfig)
    (exIn exOut : String → Bool)
    (in_pcol to_process to_pass_thru : List Klio.Elem)
    (h : Klio.setup_data_io_filters cfg exIn exOut in_pcol =
      .ok (to_process, to_pass_thru))
    (inC outC : Klio.DataConfig)
    (hin : cfg.data_inputs = [inC]) (hout : cfg.data_outputs = [outC])
    (hskip : outC.skip_klio_existence_check = false)
    (e : Klio.Elem) (he : e ∈ in_pcol) (hping : e.ping = false) :
    (exOut (Klio.osPathJoin outC.location (e.element ++ outC.file_suffix)) = false →
      (e ∈ to_process ↔
        (inC.skip_klio_existence_check = true ∨
          exIn (Klio.osPathJoin inC.location (e.element ++ inC.file_suffix)) = true))) ∧
    (exOut (Klio.osPathJoin outC.location (e.element ++ outC.file_suffix)) = true →
      e.force = false → e ∈ to_pass_thru ∧ e ∉ to_process) ∧
    (exOut (Klio.osPathJoin outC.location (e.element ++ outC.file_suffix)) = true →
      e.force = true →
      (e ∈ to_process ↔
        (inC.skip_klio_existence_check = true ∨
          exIn (Klio.osPathJoin inC.location (e.element ++ inC.file_suffix)) = true))) := by
  have hcalc : Klio.setup_data_io_filters cfg exIn exOut in_pcol =
      .ok (Klio.inputFilterBlock inC exIn
            (Klio.outputFilterBlock outC exOut (Klio.klioFilterPing in_pcol).1
              (Klio.klioFilterPing in_pcol).2).1,
           (Klio.outputFilterBlock outC exOut (Klio.klioFilterPing in_pcol).1
              (Klio.klioFilterPing in_pcol).2).2) := by
    simp [Klio.setup_data_io_filters, hin, hout]
  rw [hcalc] at h
  simp only [Except.ok.injEq, Prod.mk.injEq] at h
  obtain ⟨hp, ht⟩ := h
  subst hp; subst ht
  cases hsk : inC.skip_klio_existence_check <;>
  cases hx : exOut (Klio.osPathJoin outC.location (e.element ++ outC.file_suffix)) <;>
  cases hf : e.force <;>
  cases hi : exIn (Klio.osPathJoin inC.location (e.element ++ inC.file_suffix)) <;>
    simp [Klio.inputFilterBlock, Klio.outputFilterBlock, Klio.klioGcsCheckExists,
      Klio.klioFilterForce, Klio.klioFilterPing, List.mem_filter, List.mem_append,
      hskip, hsk, hx, hf, hi, he, hping]

/-- C4 witness: at a concrete configuration (output FOUND, force=true, input
FOUND, both checks enabled) the forced element rejoins PROCESS and reaches the
to-process stream. -/
theorem C4_output_existence_force_routing_witness :
    (⟨"a", false, true⟩ : Klio.Elem) ∈ [(⟨"a", false, true⟩ : Klio.Elem)] := by
  have h := C4_output_existence_force_routing
    ⟨[], [], [⟨"gs://i", ".wav", false⟩], [⟨"gs://o", ".wav", false⟩]⟩
    (fun _ => true) (fun _ => true)
    [⟨"a", false, true⟩] [⟨"a", false, true⟩] []
    rfl ⟨"gs://i", ".wav", false⟩ ⟨"gs://o", ".wav", false⟩ rfl rfl rfl
    ⟨"a", false, true⟩ (by decide) rfl
  exact (h.2.2 rfl rfl).mpr (Or.inr rfl)

/-- C8: skip-flag wiring.  With `skip_existence_check` set on the input, the
stream entering input filtering is returned as `to_process` unchanged (the
input-existence filter is bypassed, so no drop is possible and the result does
not depend on the input lookup).  With `skip_existence_check` set on the
output, the output-existence/force split is omitted: the ping-filtered PROCESS
stream goes directly to input filtering and the pass-thru branch is exactly
the ping PASS_THRU stream. -/
theorem C8_skip_existence_wiring (cfg : Klio.JobConfig)
    (exIn exOut : String → Bool) (in_pcol : List Klio.Elem)
    (inC outC : Klio.DataConfig)
    (hin : cfg.data_inputs = [inC]) (hout : cfg.data_outputs = [outC]) :
    (inC.skip_klio_existence_check = true →
      Klio.setup_data_io_filters cfg exIn exOut in_pcol =
        .ok ((Klio.outputFilterBlock outC exOut (Klio.klioFilterPing in_pcol).1
                (Klio.klioFilterPing in_pcol).2).1,
             (Klio.outputFilterBlock outC exOut (Klio.klioFilterPing in_pcol).1
                (Klio.klioFilterPing in_pcol).2).2)) ∧
    (outC.skip_klio_existence_check = true →
      Klio.setup_data_io_filters cfg exIn exOut in_pcol =
        .ok (Klio.inputFilterBlock inC exIn (Klio.klioFilterPing in_pcol).1,
             (Klio.klioFilterPing in_pcol).2)) := by
  constructor
  · intro hskip
    simp [Klio.setup_data_io_filters, hin, hout, Klio.inputFilterBlock, hskip]
  · intro hskip
    simp [Klio.setup_data_io_filters, hin, hout, Klio.outputFilterBlock, hskip]

/-- C8 witness: with both skip flags set, a PROCESS element survives to
`to_process` even though the input lookup finds nothing. -/
theorem C8_skip_existence_wiring_witness :
    Klio.setup_data_io_filters
      ⟨[], [], [⟨"gs://i", ".wav", true⟩], [⟨"gs://o", ".wav", true⟩]⟩
      (fun _ => false) (fun _ => false)
      [⟨"a", false, false⟩, ⟨"b", true, false⟩] =
      .ok ([⟨"a", false, false⟩], [⟨"b", true, false⟩]) :=
  (C8_skip_existence_wiring
    ⟨[], [], [⟨"gs://i", ".wav", true⟩], [⟨"gs://o", ".wav", true⟩]⟩
    (fun _ => false) (fun _ => false)
    [⟨"a", false, false⟩, ⟨"b", true, false⟩]
    ⟨"gs://i", ".wav", true⟩ ⟨"gs://o", ".wav", true⟩ rfl rfl).1 rfl

namespace Klio

/-- With more than one data input or output configured,
`_setup_data_io_filters` aborts, whatever stream it is given. -/
theorem setup_data_io_filters_multi_error {cfg : JobConfig}
    {exIn exOut : String → Bool} {xs : List Elem}
    (hdata : 1 < cfg.data_inputs.length ∨ 1 < cfg.data_outputs.length) :
    setup_data_io_filters cfg exIn exOut xs = .error .unsupportedMultipleData := by
  unfold setup_data_io_filters
  rw [if_pos hdata]

/-- `_generate_pcoll` propagates the multiple-data-IO abort for any input that
does not skip the klio read. -/
theorem generate_pcoll_multi_error {cfg : JobConfig} {input_config : EventConfig}
    {exIn exOut : String → Bool}
    (hdata : 1 < cfg.data_inputs.length ∨ 1 < cfg.data_outputs.length)
    (hread : input_config.skip_klio_read = false) :
    generate_pcoll cfg input_config exIn exOut =
      .error .unsupportedMultipleData := by
  simp [generate_pcoll, hread, setup_data_io_filters_multi_error hdata,
    Bind.bind, Except.bind]

/-- The per-input loop of `_generate_pcoll_per_input` propagates the
multiple-data-IO abort as soon as it reaches an input that does not skip the
klio read. -/
theorem generate_pcolls_multi_error {cfg : JobConfig} {exIn exOut : String → Bool}
    (hdata : 1 < cfg.data_inputs.length ∨ 1 < cfg.data_outputs.length) :
    ∀ l : List (String × EventConfig), (∃ p ∈ l, p.2.skip_klio_read = false) →
      generate_pcolls cfg exIn exOut l = .error .unsupportedMultipleData := by
  intro l
  induction l with
  | nil => rintro ⟨p, hp, _⟩; cases hp
  | cons head tail ih =>
    rintro ⟨p, hp, hskip⟩
    obtain ⟨name, conf⟩ := head
    rcases List.mem_cons.mp hp with rfl | hp'
    · simp [generate_pcolls, generate_pcoll_multi_error hdata hskip,
        Bind.bind, Except.bind]
    · cases hc : conf.skip_klio_read
      · simp [generate_pcolls, generate_pcoll_multi_error hdata hc,
          Bind.bind, Except.bind]
      · simp [generate_pcolls, generate_pcoll, hc, ih ⟨p, hp', hskip⟩,
          Bind.bind, Except.bind, Pure.pure]

/-- The input names generated by `_generate_input_conf_names` pair each input
with its configuration: forgetting the names gives the inputs back. -/
theorem generate_input_conf_names_map_snd (evs : List EventConfig) :
    (generate_input_conf_names evs).map Prod.snd = evs := by
  simp [generate_input_conf_names, List.map_map, Function.comp]
  exact List.enum_map_snd evs

end Klio

/-- C6 counterexample: a job declaring two event outputs is not rejected —
`_setup_pipeline` silently uses the first output configuration and ignores the
second, so pipeline construction succeeds, refuting "more than one declared
output sink ... aborts with a configuration error".  (The first component of
the configuration below is one event input whose single element has its input
data found and its output not yet produced; the job builds and runs it.) -/
theorem C6_counterexample :
    Klio.setup_pipeline
      ⟨[⟨"file", false, false, [⟨"a", false, false⟩]⟩],
       [⟨"file", false, false, []⟩, ⟨"pubsub", false, false, []⟩],
       [⟨"gs://i", ".wav", false⟩], [⟨"gs://o", ".wav", false⟩]⟩
      (fun _ => []) (fun _ => true) (fun _ => false) =
      .ok (some []) := rfl

/-- C6 (amended): the build-time fail-fast applies to the data-IO topology:
whenever the job declares more than one data input or more than one data
output and some event input is actually read through klio (so a filter chain
is constructed), pipeline construction aborts with `SystemExit(1)` before the
user callable or any output stage is wired — no element is ever processed.
Multiple declared event outputs are NOT rejected; outputs beyond the first are
silently ignored (see the counterexample). -/
theorem C6_build_time_fail_fast (cfg : Klio.JobConfig)
    (f : Klio.PColl → List Klio.Elem) (exIn exOut : String → Bool)
    (hdata : 1 < cfg.data_inputs.length ∨ 1 < cfg.data_outputs.length)
    (i : Klio.EventConfig) (hi : i ∈ cfg.event_inputs)
    (hread : i.skip_klio_read = false) :
    Klio.setup_pipeline cfg f exIn exOut = .error .unsupportedMultipleData := by
  cases hev : cfg.event_inputs with
  | nil => rw [hev] at hi; cases hi
  | cons a tail =>
    cases tail with
    | nil =>
      rw [hev] at hi
      rcases List.mem_singleton.mp hi with rfl
      simp [Klio.setup_pipeline, hev,
        Klio.generate_pcoll_multi_error hdata hread, Bind.bind, Except.bind]
    | cons b tail2 =>
      have hex : ∃ p ∈ Klio.generate_input_conf_names cfg.event_inputs,
          p.2.skip_klio_read = false := by
        have hmem : i ∈ (Klio.generate_input_conf_names cfg.event_inputs).map
            Prod.snd := by
          rw [Klio.generate_input_conf_names_map_snd]; exact hi
        obtain ⟨p, hp, hpe⟩ := List.mem_map.mp hmem
        exact ⟨p, hp, by rw [hpe]; exact hread⟩
      rw [hev] at hex
      simp [Klio.setup_pipeline, hev, Klio.generate_pcoll_per_input,
        Klio.generate_pcolls_multi_error hdata _ hex, Bind.bind, Except.bind]

/-- C6 witness: a job with two data inputs and one klio-read event input
aborts at build time. -/
theorem C6_build_time_fail_fast_witness :
    Klio.setup_pipeline
      ⟨[⟨"file", false, false, []⟩], [⟨"file", false, false, []⟩],
       [⟨"gs://i1", ".wav", false⟩, ⟨"gs://i2", ".wav", false⟩],
       [⟨"gs://o", ".wav", false⟩]⟩
      (fun _ => []) (fun _ => true) (fun _ => true) =
      .error .unsupportedMultipleData :=
  C6_build_time_fail_fast
    ⟨[⟨"file", false, false, []⟩], [⟨"file", false, false, []⟩],
     [⟨"gs://i1", ".wav", false⟩, ⟨"gs://i2", ".wav", false⟩],
     [⟨"gs://o", ".wav", false⟩]⟩
    (fun _ => []) (fun _ => true) (fun _ => true)
    (Or.inl (by decide)) ⟨"file", false, false, []⟩ (by decide) rfl

/-- C9 (implicit): for a single-input job whose event input has
`skip_klio_read` set, `_generate_pcoll` returns the raw pipeline object as
`to_process` with a `None` pass-thru branch — no ping, existence, or force
filter is applied — and `_setup_pipeline` hands exactly that raw pipeline to
the user callable and forwards the callable's output to the output stage with
no pass-thru merge. -/
theorem C9_skip_klio_read (cfg : Klio.JobConfig) (ic : Klio.EventConfig)
    (f : Klio.PColl → List Klio.Elem) (exIn exOut : String → Bool)
    (hcfg : cfg.event_inputs = [ic]) (hskip : ic.skip_klio_read = true) :
    Klio.generate_pcoll cfg ic exIn exOut = .ok (.raw, none) ∧
    (∀ oc rest, cfg.event_outputs = oc :: rest → oc.skip_klio_write = false →
      Klio.setup_pipeline cfg f exIn exOut = .ok (some (f (.single .raw)))) := by
  have hg : Klio.generate_pcoll cfg ic exIn exOut = .ok (.raw, none) := by
    simp [Klio.generate_pcoll, hskip]
  refine ⟨hg, fun oc rest hout hw => ?_⟩
  simp [Klio.setup_pipeline, hcfg, hg, hout, hw, Bind.bind, Except.bind,
    Pure.pure, Except.pure]

/-- C9 witness: concrete single-input job with `skip_klio_read`; the callable
receives the raw pipeline and its output is forwarded unchanged. -/
theorem C9_skip_klio_read_witness :
    Klio.setup_pipeline
      ⟨[⟨"file", true, false, []⟩], [⟨"file", false, false, []⟩],
       [⟨"gs://i", ".wav", false⟩], [⟨"gs://o", ".wav", false⟩]⟩
      (fun _ => [⟨"r", false, false⟩]) (fun _ => true) (fun _ => true) =
      .ok (some [⟨"r", false, false⟩]) :=
  (C9_skip_klio_read
    ⟨[⟨"file", true, false, []⟩], [⟨"file", false, false, []⟩],
     [⟨"gs://i", ".wav", false⟩], [⟨"gs://o", ".wav", false⟩]⟩
    ⟨"file", true, false, []⟩
    (fun _ => [⟨"r", false, false⟩]) (fun _ => true) (fun _ => true)
    rfl rfl).2 ⟨"file", false, false, []⟩ [] rfl rfl

/-- C1: merge completeness for a two-input job.  With two event inputs whose
filter chains produce pass-thru streams `pt1` and `pt2` and a user callable
producing output `O`, `_setup_pipeline` hands the output stage exactly
`O ++ (pt1 ++ pt2)`; as a set (membership, order irrelevant) this is
`O ∪ PASS_THRU_1 ∪ PASS_THRU_2`; and when no pass-thru elements exist the
callable's output is forwarded unchanged. -/
theorem C1_merge_completeness (cfg : Klio.JobConfig)
    (f : Klio.PColl → List Klio.Elem) (exIn exOut : String → Bool)
    (i1 i2 : Klio.EventConfig) (hcfg : cfg.event_inputs = [i1, i2])
    (h1 : i1.skip_klio_read = false) (h2 : i2.skip_klio_read = false)
    (p1 pt1 p2 pt2 : List Klio.Elem)
    (hf1 : Klio.setup_data_io_filters cfg exIn exOut i1.elements = .ok (p1, pt1))
    (hf2 : Klio.setup_data_io_filters cfg exIn exOut i2.elements = .ok (p2, pt2))
    (oc : Klio.EventConfig) (rest : List Klio.EventConfig)
    (hout : cfg.event_outputs = oc :: rest) (hw : oc.skip_klio_write = false) :
    Klio.setup_pipeline cfg f exIn exOut =
      .ok (some (f (.multi [(i1.name ++ toString 0, .stream p1),
                            (i2.name ++ toString 1, .stream p2)]) ++ (pt1 ++ pt2))) ∧
    (∀ x, x ∈ f (.multi [(i1.name ++ toString 0, .stream p1),
                         (i2.name ++ toString 1, .stream p2)]) ++ (pt1 ++ pt2) ↔
      (x ∈ f (.multi [(i1.name ++ toString 0, .stream p1),
                      (i2.name ++ toString 1, .stream p2)]) ∨
        x ∈ pt1 ∨ x ∈ pt2)) ∧
    (pt1 = [] → pt2 = [] →
      f (.multi [(i1.name ++ toString 0, .stream p1),
                 (i2.name ++ toString 1, .stream p2)]) ++ (pt1 ++ pt2) =
        f (.multi [(i1.name ++ toString 0, .stream p1),
                   (i2.name ++ toString 1, .stream p2)])) := by
  refine ⟨?_, ?_, ?_⟩
  · simp [Klio.setup_pipeline, hcfg, hout, hw, Klio.generate_pcoll_per_input,
      Klio.generate_input_conf_names, Klio.generate_pcolls, Klio.generate_pcoll,
      h1, h2, hf1, hf2, List.enum, List.enumFrom, Bind.bind, Except.bind,
      Pure.pure, Except.pure]
  · intro x
    simp [List.mem_append, or_assoc]
  · rintro rfl rfl
    simp

/-- C1 witness: two inputs each contributing one ping element to PASS_THRU,
callable output `[o]`; the final stream is `[o, a, b]`. -/
theorem C1_merge_completeness_witness :
    Klio.setup_pipeline
      ⟨[⟨"file", false, false, [⟨"a", true, false⟩]⟩,
        ⟨"avro", false, false, [⟨"b", true, false⟩]⟩],
       [⟨"file", false, false, []⟩],
       [⟨"gs://i", ".wav", false⟩], [⟨"gs://o", ".wav", false⟩]⟩
      (fun _ => [⟨"o", false, false⟩]) (fun _ => true) (fun _ => true) =
      .ok (some [⟨"o", false, false⟩, ⟨"a", true, false⟩, ⟨"b", true, false⟩]) :=
  (C1_merge_completeness
    ⟨[⟨"file", false, false, [⟨"a", true, false⟩]⟩,
      ⟨"avro", false, false, [⟨"b", true, false⟩]⟩],
     [⟨"file", false, false, []⟩],
     [⟨"gs://i", ".wav", false⟩], [⟨"gs://o", ".wav", false⟩]⟩
    (fun _ => [⟨"o", false, false⟩]) (fun _ => true) (fun _ => true)
    ⟨"file", false, false, [⟨"a", true, false⟩]⟩
    ⟨"avro", false, false, [⟨"b", true, false⟩]⟩
    rfl rfl rfl
    [] [⟨"a", true, false⟩] [] [⟨"b", true, false⟩]
    rfl rfl
    ⟨"file", false, false, []⟩ [] rfl rfl).1

/-- C7: Envelope round-trip — for every envelope `e`, `decode(encode(e)) == e`
(parsing a serialized `KlioMessage` recovers it); and an element serialized
into a message by the read-side text source (`read_records`) is recovered
unchanged by the write-side text sink's parse (`write_record`). -/
theorem C7_envelope_round_trip :
    (∀ m : Klio.KlioMessage,
        Klio.parseFromString (Klio.serializeToString m) = some m) ∧
    (∀ record : String,
        Klio.textSink_write_record (Klio.textSource_read_record record) =
          some (Klio.utf8Encode record)) := by
  have round : ∀ m : Klio.KlioMessage,
      Klio.parseFromString (Klio.serializeToString m) = some m := by
    rintro ⟨v, e, md⟩
    simp [Klio.serializeToString, Klio.parseFromString, List.take_left,
      List.drop_left, Nat.le_add_right]
  refine ⟨round, fun record => ?_⟩
  simp [Klio.textSink_write_record, Klio.textSource_read_record, round]

/-- C10 counterexample: with `file_pattern=""` and `location=""` — both given
(neither is `None`) — `KlioReadFromAvro._get_file_pattern` nevertheless raises
`KlioMissingConfiguration`, because the guard tests Python truthiness
(`not any([file_pattern, location])`), not `is None`; this refutes "raises
KlioMissingConfiguration if and only if both file_pattern and location are
None". -/
theorem C10_counterexample :
    Klio.get_file_pattern (some "") (some "") = .error () ∧
    (some "" : Option String) ≠ none := by
  exact ⟨rfl, Option.some_ne_none ""⟩

/-- C10 (amended): `_get_file_pattern` raises `KlioMissingConfiguration` if
and only if both `file_pattern` and `location` are falsy (i.e. `None` or the
empty string); when both are truthy the effective pattern is
`os.path.join(location, file_pattern)`; when `file_pattern is None` (and
`location` truthy) the location is used; in every other non-raising case
`file_pattern` is used as given — even when it is the empty string. -/
theorem C10_file_pattern (fp loc : Option String) :
    (Klio.get_file_pattern fp loc = .error () ↔
        Klio.pyTruthy fp = false ∧ Klio.pyTruthy loc = false) ∧
    (Klio.pyTruthy fp = true → Klio.pyTruthy loc = true →
        Klio.get_file_pattern fp loc =
          .ok (Klio.osPathJoin (loc.getD "") (fp.getD ""))) ∧
    (fp = none → Klio.pyTruthy loc = true →
        Klio.get_file_pattern fp loc = .ok (loc.getD "")) ∧
    (Klio.pyTruthy fp = true → Klio.pyTruthy loc = false →
        Klio.get_file_pattern fp loc = .ok (fp.getD "")) ∧
    (fp ≠ none → Klio.pyTruthy fp = false → Klio.pyTruthy loc = true →
        Klio.get_file_pattern fp loc = .ok (fp.getD "")) := by
  cases fp with
  | none =>
    cases hl : Klio.pyTruthy loc <;>
      simp [Klio.get_file_pattern, Klio.pyTruthy_none, hl]
  | some s =>
    cases hs : (s == "") <;> cases hl : Klio.pyTruthy loc <;>
      simp [Klio.get_file_pattern, Klio.pyTruthy_some, hs, hl]

/-- C10 witness: the amended behavior at concrete inputs — both keys given and
non-empty joins them. -/
theorem C10_file_pattern_witness :
    Klio.get_file_pattern (some "part.avro") (some "gs://bucket") =
      .ok "gs://bucket/part.avro" := by
  have h := (C10_file_pattern (some "part.avro") (some "gs://bucket")).2.1
    (by decide) (by decide)
  exact h.trans (congrArg Except.ok (by decide))

/-- C3: an element whose deserialization into a `KlioMessage` fails is
dropped by the wrapped entry point — nothing is emitted for it, one log record
carrying the original error is produced, and no exception escapes the stage
(the wrapper returns normally, i.e. `Except.ok`). -/
theorem C3_decode_failure_contained
    (to_klio_message : List Nat → Except Klio.PyErr Klio.KlioMessage)
    (meth : Klio.KlioMessage → Except Klio.PyErr (List Klio.TaggedOut))
    (incoming : List Nat) (err : Klio.PyErr)
    (h : to_klio_message incoming = .error err) :
    Klio.wrap_process to_klio_message meth incoming =
      .ok ([], [.droppedSerialize incoming err]) := by
  simp [Klio.wrap_process, h]

/-- C3 witness: a concrete malformed element is dropped with one log record
and no escaping exception. -/
theorem C3_decode_failure_contained_witness :
    Klio.wrap_process (fun _ => .error .malformed) (fun _ => .ok []) [0] =
      .ok ([], [.droppedSerialize [0] .malformed]) :=
  C3_decode_failure_contained (fun _ => .error .malformed) (fun _ => .ok [])
    [0] .malformed rfl

/-- C2 (code bug): the claim — and the spec — say a `LookupError` raised by
the existence lookup bubbles out of the stage's per-element entry point.  The
code does not: the `try` block of `_wrap_process` also covers the execution of
the wrapped `process` method, and its `except Exception` catches the
`LookupError`, drops the element, and logs it with the decode-failure message
("exception occurred when serializing ... to a KlioMessage").  Evaluated here
at a failing input: deserialization succeeds, the lookup raises, yet the
wrapped entry point returns normally (`Except.ok`) with no output. -/
theorem C2_lookup_error_swallowed :
    Klio.wrap_process
      (fun _ => .ok ⟨0, Klio.utf8Encode "a", []⟩)
      (Klio.gcsCheckExists_process ⟨"gs://input-data", ".wav", false⟩
        (fun _ => .error .lookupError))
      [97] =
      .ok ([], [.droppedSerialize [97] .lookupError]) := rfl
